import Mathlib

/-!
Verification of the llm-text-queue core: a shallow Lean embedding of the
Python modules `cache_manager.py`, `redis_manager.py`, `respond.py`,
`provider_openrouter.py`, `api_queue.py` and `main.py`, together with
theorems settling the specification claims about them.

Modelling conventions:
* Python strings are Lean `String` (or `List Char` for the character-level
  sanitizer); Python truthiness of a string is the test `s ≠ ""`.
* External effects (the Redis backend, HTTP calls to providers, the system
  clock) are passed in explicitly as environment records; each caught
  exception class in the source becomes a Boolean "this call raised" field.
* `hashlib.sha256` is embedded as a full SHA-256 implementation over the
  UTF-8 bytes of the prompt, so cache keys are computed exactly.
-/

namespace LlmTextQueue

/-! ## Python string primitives -/

/-- The ASCII whitespace characters stripped by Python `str.strip()`
(space, tab, newline, carriage return, vertical tab, form feed). -/
def pyWs (c : Char) : Bool :=
  c == ' ' || c == '\t' || c == '\n' || c == '\r' ||
  c == Char.ofNat 11 || c == Char.ofNat 12

/-- Python `str.strip()` on a character list: drop whitespace from both ends. -/
def stripList (l : List Char) : List Char :=
  (l.dropWhile pyWs).rdropWhile pyWs

/-- Python `str.strip()` on a `String`. -/
def pyStrip (s : String) : String := ⟨stripList s.data⟩

/-- Python `s[:n]` (by code point, as in Python). -/
def strTake (s : String) (n : Nat) : String := ⟨s.data.take n⟩

/-- Python `s[n:]` (by code point, as in Python). -/
def strDrop (s : String) (n : Nat) : String := ⟨s.data.drop n⟩

/-- Python `s.startswith(p)`. -/
def strStartsWith (s p : String) : Bool := List.isPrefixOf p.data s.data

/-! ## `sanitize_prompt` (`respond.py` 151-172 and, identically, `api_queue.py` 177-198)

The four `re.sub` passes are embedded one by one.  Each helper implements the
leftmost, non-overlapping, greedy semantics of the corresponding regex. -/

/-- `re.sub(r'\r\n', '\n', prompt)`: replace each CR-LF pair, scanning left to
right without overlap. -/
def replaceCRLF : List Char → List Char
  | '\r' :: '\n' :: rest => '\n' :: replaceCRLF rest
  | c :: rest => c :: replaceCRLF rest
  | [] => []

/-- `re.sub(r'\n{3,}', '\n\n', prompt)`: every maximal run of three or more
newlines becomes exactly two, i.e. consecutive newlines are capped at two.
The first argument counts the newlines already emitted in the current run. -/
def capNewlines : Nat → List Char → List Char
  | _, [] => []
  | run, c :: rest =>
    if c == '\n' then
      if run ≥ 2 then capNewlines run rest
      else '\n' :: capNewlines (run + 1) rest
    else c :: capNewlines 0 rest

/-- `re.sub(r'[ \t]+', ' ', prompt)`: every maximal run of spaces and tabs
becomes a single space.  The Boolean records whether the previous character
was part of such a run. -/
def squeezeSpacesTabs : Bool → List Char → List Char
  | _, [] => []
  | inRun, c :: rest =>
    if c == ' ' || c == '\t' then
      if inRun then squeezeSpacesTabs true rest
      else ' ' :: squeezeSpacesTabs true rest
    else c :: squeezeSpacesTabs false rest

/-- The character class `[\x00-\x08\x0b\x0c\x0e-\x1f\x7f-\x9f]` removed by the
fourth `re.sub`. -/
def removedCtrl (c : Char) : Bool :=
  (c.toNat ≤ 8) || c.toNat == 11 || c.toNat == 12 ||
  (14 ≤ c.toNat && c.toNat ≤ 31) || (127 ≤ c.toNat && c.toNat ≤ 159)

/-- `sanitize_prompt` from `respond.py` (and the identical copy in
`api_queue.py`): normalize line endings, cap newline runs, squeeze
spaces/tabs, remove dangerous control characters, then strip. -/
def sanitize_prompt (l : List Char) : List Char :=
  if l = [] then []
  else
    stripList (List.filter (fun c => !removedCtrl c)
      (squeezeSpacesTabs false (capNewlines 0 (replaceCRLF l))))

/-! ## SHA-256 (`hashlib.sha256(prompt.encode('utf-8')).hexdigest()`)

A direct embedding of FIPS 180-4 over `Nat` with arithmetic mod 2^32. -/

/-- Right rotation of a 32-bit word. -/
def rotr32 (n x : Nat) : Nat := ((x >>> n) ||| (x <<< (32 - n))) % 4294967296

/-- Addition mod 2^32. -/
def add32 (a b : Nat) : Nat := (a + b) % 4294967296

def sSig0 (x : Nat) : Nat := (rotr32 7 x) ^^^ (rotr32 18 x) ^^^ (x >>> 3)

def sSig1 (x : Nat) : Nat := (rotr32 17 x) ^^^ (rotr32 19 x) ^^^ (x >>> 10)

def bSig0 (x : Nat) : Nat := (rotr32 2 x) ^^^ (rotr32 13 x) ^^^ (rotr32 22 x)

def bSig1 (x : Nat) : Nat := (rotr32 6 x) ^^^ (rotr32 11 x) ^^^ (rotr32 25 x)

def chFn (x y z : Nat) : Nat := (x &&& y) ^^^ ((x ^^^ 4294967295) &&& z)

def majFn (x y z : Nat) : Nat := (x &&& y) ^^^ (x &&& z) ^^^ (y &&& z)

/-- Primality by trial division, only used to build the constant tables. -/
def isPrimeNat (n : Nat) : Bool :=
  2 ≤ n && (((List.range n).drop 2).all fun d => n % d ≠ 0)

/-- The first `count` primes (the 64th prime, 311, is below the 400 bound). -/
def firstPrimes (count : Nat) : List Nat :=
  ((List.range 400).filter isPrimeNat).take count

/-- Fuel-driven binary search for the integer square root. -/
def sqrtBin (n : Nat) : Nat → Nat → Nat → Nat
  | 0, lo, _ => lo
  | fuel + 1, lo, hi =>
    if lo = hi then lo
    else
      let mid := (lo + hi + 1) / 2
      if mid * mid ≤ n then sqrtBin n fuel mid hi else sqrtBin n fuel lo (mid - 1)

/-- Fuel-driven binary search for the integer cube root. -/
def cbrtBin (n : Nat) : Nat → Nat → Nat → Nat
  | 0, lo, _ => lo
  | fuel + 1, lo, hi =>
    if lo = hi then lo
    else
      let mid := (lo + hi + 1) / 2
      if mid * mid * mid ≤ n then cbrtBin n fuel mid hi else cbrtBin n fuel lo (mid - 1)

/-- The 64 SHA-256 round constants of FIPS 180-4: the first 32 bits of the
fractional parts of the cube roots of the first 64 primes, computed as
`floor(cbrt(p * 2^96)) mod 2^32`. -/
def sha256K : List Nat :=
  (firstPrimes 64).map fun p => cbrtBin (p * 2 ^ 96) 200 0 (p * 2 ^ 96) % 2 ^ 32

/-- The SHA-256 initial hash state of FIPS 180-4: the first 32 bits of the
fractional parts of the square roots of the first 8 primes, computed as
`floor(sqrt(p * 2^64)) mod 2^32`. -/
def sha256H0 : List Nat :=
  (firstPrimes 8).map fun p => sqrtBin (p * 2 ^ 64) 200 0 (p * 2 ^ 64) % 2 ^ 32

def wAt (w : List Nat) (i : Nat) : Nat := w.getD i 0

/-- Extend a 16-word block to the 64-word message schedule. -/
def msgSchedule (block : List Nat) : List Nat :=
  (List.range 48).foldl (fun w _ =>
    let i := w.length
    w ++ [add32 (add32 (sSig1 (wAt w (i-2))) (wAt w (i-7)))
               (add32 (sSig0 (wAt w (i-15))) (wAt w (i-16)))]) block

/-- One SHA-256 compression round on the eight-word working state. -/
def roundFn (st : List Nat) (ki wi : Nat) : List Nat :=
  match st with
  | [a, b, c, d, e, f, g, h] =>
    let t1 := add32 h (add32 (bSig1 e) (add32 (chFn e f g) (add32 ki wi)))
    let t2 := add32 (bSig0 a) (majFn a b c)
    [add32 t1 t2, a, b, c, add32 d t1, e, f, g]
  | other => other

/-- Compress one 16-word block into the running hash state. -/
def processBlock (hs : List Nat) (block : List Nat) : List Nat :=
  let w := msgSchedule block
  let st := (List.zip sha256K w).foldl (fun st p => roundFn st p.1 p.2) hs
  List.zipWith add32 hs st

/-- Big-endian byte decomposition of `v` into `n` bytes. -/
def toBytesBE (n v : Nat) : List Nat :=
  (List.range n).map (fun i => (v >>> (8 * (n - 1 - i))) % 256)

/-- SHA-256 padding: append 0x80, zeros, and the 64-bit bit length. -/
def padMessage (msg : List Nat) : List Nat :=
  let len := msg.length
  let padZeros := (64 - ((len + 9) % 64)) % 64
  msg ++ [0x80] ++ List.replicate padZeros 0 ++ toBytesBE 8 (len * 8)

/-- Group bytes into big-endian 32-bit words. -/
def toWordsBE : List Nat → List Nat
  | b0 :: b1 :: b2 :: b3 :: rest => (((b0 * 256 + b1) * 256 + b2) * 256 + b3) :: toWordsBE rest
  | _ => []

/-- Split a word list into 16-word blocks (fuel-driven for kernel reduction). -/
def chunkWordsAux : Nat → List Nat → List (List Nat)
  | 0, _ => []
  | _, [] => []
  | fuel + 1, ws => ws.take 16 :: chunkWordsAux fuel (ws.drop 16)

def chunkWords (ws : List Nat) : List (List Nat) := chunkWordsAux ws.length ws

/-- SHA-256 of a byte sequence, as 32 output bytes. -/
def sha256Bytes (msg : List Nat) : List Nat :=
  let blocks := chunkWords (toWordsBE (padMessage msg))
  let hs := blocks.foldl processBlock sha256H0
  hs.foldr (fun h acc => toBytesBE 4 h ++ acc) []

def hexDigit (n : Nat) : Char := if n < 10 then Char.ofNat (48 + n) else Char.ofNat (87 + n)

def bytesToHex (bs : List Nat) : List Char :=
  bs.foldr (fun b acc => hexDigit (b / 16) :: hexDigit (b % 16) :: acc) []

/-- UTF-8 encoding of one code point, as bytes. -/
def utf8EncodeCharNat (c : Char) : List Nat :=
  let n := c.toNat
  if n < 0x80 then [n]
  else if n < 0x800 then [0xC0 ||| (n >>> 6), 0x80 ||| (n &&& 0x3F)]
  else if n < 0x10000 then
    [0xE0 ||| (n >>> 12), 0x80 ||| ((n >>> 6) &&& 0x3F), 0x80 ||| (n &&& 0x3F)]
  else
    [0xF0 ||| (n >>> 18), 0x80 ||| ((n >>> 12) &&& 0x3F),
     0x80 ||| ((n >>> 6) &&& 0x3F), 0x80 ||| (n &&& 0x3F)]

/-- `prompt.encode('utf-8')`. -/
def utf8Bytes (s : String) : List Nat :=
  (s.data.map utf8EncodeCharNat).flatten

/-- `hashlib.sha256(s.encode('utf-8')).hexdigest()`. -/
def sha256hex (s : String) : String := ⟨bytesToHex (sha256Bytes (utf8Bytes s))⟩

/-! ## `cache_manager.py`: the `CacheManager` class

The Redis keyspace is an association list from key to stored value; a
stored value is either a payload that `json.loads` rejects (`corrupt`) or
the record serialized by `_serialize_response` (`entry`).  The manager's
in-process state is the pair of hit/miss counters plus the backing store;
the environment carries the `redis_mgr.is_connected` result, a flag for a
raised backend exception, and the clock. -/

/-- A JSON value appearing in the cached metadata mapping: the callers in
`main.py` store strings, and `_deserialize_response` injects the numeric
`cached_at` timestamp. -/
inductive MetaVal
  | s (v : String)
  | n (v : Nat)
deriving DecidableEq

/-- A Python dict with string keys, as an association list. -/
abbrev Metadata := List (String × MetaVal)

/-- Python `d[k] = v`: replace the existing binding or append a new one. -/
def dictSet (d : Metadata) (k : String) (v : MetaVal) : Metadata :=
  if (List.any d fun p => p.1 == k) then
    List.map (fun p => if p.1 == k then (k, v) else p) d
  else d ++ [(k, v)]

/-- What `redis` holds at a cache key: either bytes that fail
`json.loads` or the serialized `{response, metadata, cached_at, version}`
record written by `CacheManager.set`. -/
inductive StoredVal
  | corrupt
  | entry (response : String) (metadata : Metadata) (cached_at : Nat)
deriving DecidableEq

/-- The Redis keyspace. -/
abbrev Store := List (String × StoredVal)

/-- Environment of one cache operation: whether `redis_mgr.is_connected`
reports true, whether the Redis client call inside the `try` block raises
(`ConnectionError`/`TimeoutError`/... all land in the same `except`), and
the current `time.time()` (as a whole number of seconds). -/
structure RedisEnv where
  connected : Bool
  opRaises : Bool
  now : Nat
deriving DecidableEq

/-- In-process state of `CacheManager` plus the backing keyspace. -/
structure CacheSt where
  hit_count : Nat
  miss_count : Nat
  store : Store
deriving DecidableEq

/-- `CacheManager.default_ttl` default. -/
def defaultTTL : Nat := 3600

/-- `CacheManager.max_key_length` default. -/
def maxKeyLength : Nat := 250

/-- `self.cache_prefix = "llm_cache:"` (note the trailing colon, which is part
of the configured namespace string). -/
def llmCacheNamespaceStr : String := "llm_cache:"

/-- `CacheManager._generate_cache_key`: the first 16 hex characters of the
SHA-256 of the UTF-8 prompt, joined with the namespace, provider and model by
`":".join(...)`, then hard-cut to `max_key_length`. -/
def generate_cache_key (max_key_length : Nat) (prompt provider model : String) : String :=
  let prompt_hash := strTake (sha256hex prompt) 16
  let key := String.intercalate ":" [llmCacheNamespaceStr, provider, model, prompt_hash]
  if key.length > max_key_length then strTake key max_key_length else key

/-- `CacheManager._deserialize_response`: a `json.loads` failure yields
`("", {})`; otherwise the response and metadata fields are read back and
`metadata["cached_at"]` is set from the top-level timestamp. -/
def deserialize_response : StoredVal → String × Metadata
  | .corrupt => ("", [])
  | .entry r m ts => (r, dictSet m "cached_at" (.n ts))

/-- `redis.get`/`setex`/`delete` key lookup. -/
def storeLookup (s : Store) (k : String) : Option StoredVal :=
  List.lookup k s

/-- `redis.setex`: bind `k` to `v` (expiry itself is backend-internal and not
observed by any claim, so the TTL argument is not recorded). -/
def storeSet (s : Store) (k : String) (v : StoredVal) : Store :=
  if (List.any s fun p => p.1 == k) then
    List.map (fun p => if p.1 == k then (k, v) else p) s
  else s ++ [(k, v)]

/-- `CacheManager.get` (`cache_manager.py` 104-138).  Returns the
`(response | absent, metadata)` pair and the updated manager state. -/
def CacheManager.get (env : RedisEnv) (st : CacheSt) (prompt provider model : String) :
    (Option String × Metadata) × CacheSt :=
  if !env.connected then ((none, []), st)
  else
    let cache_key := generate_cache_key maxKeyLength prompt provider model
    if env.opRaises then ((none, []), st)
    else
      match storeLookup st.store cache_key with
      | some v =>
        let rm := deserialize_response v
        if rm.1 ≠ "" then
          ((some rm.1, rm.2), { st with hit_count := st.hit_count + 1 })
        else
          ((none, []), { st with miss_count := st.miss_count + 1 })
      | none => ((none, []), { st with miss_count := st.miss_count + 1 })

/-- `CacheManager.set` (`cache_manager.py` 140-180).  Returns the Boolean
result and the updated state. -/
def CacheManager.set (env : RedisEnv) (st : CacheSt)
    (prompt provider model response : String) (metadata : Metadata)
    (ttl : Option Nat) : Bool × CacheSt :=
  if !env.connected then (false, st)
  else if response = "" || pyStrip response = "" then (false, st)
  else
    let cache_key := generate_cache_key maxKeyLength prompt provider model
    let _cache_ttl := ttl.getD defaultTTL
    if env.opRaises then (false, st)
    else
      (true, { st with store := storeSet st.store cache_key (.entry response metadata env.now) })

/-- The keys returned by the cursor `SCAN` loop with pattern
`"llm_cache:*"`: every key of the keyspace matching the namespace glob. -/
def scanKeys (s : Store) : List String :=
  (s.map Prod.fst).filter (fun k => strStartsWith k llmCacheNamespaceStr)

/-- `CacheManager.clear_all` (`cache_manager.py` 213-244): scan the namespace,
delete the collected keys in bulk, return `bool(deleted-count)`; an empty scan
result returns `True` without deleting. -/
def CacheManager.clear_all (env : RedisEnv) (st : CacheSt) : Bool × CacheSt :=
  if !env.connected then (false, st)
  else if env.opRaises then (false, st)
  else
    let cache_keys := scanKeys st.store
    if cache_keys.isEmpty then (true, st)
    else
      (decide (0 < cache_keys.length),
       { st with store := st.store.filter (fun p => !(strStartsWith p.1 llmCacheNamespaceStr)) })

/-! ## `redis_manager.py`: the `RedisManager` class

The manager's mutable state is the `_is_connected` flag and the presence of
the `_redis_client` and `_queue` handles.  The network is an oracle: each
operation takes the outcome of its backend calls as explicit arguments. -/

/-- `RedisManager` internal state: `_is_connected`, `_redis_client is not
None`, `_queue is not None`. -/
structure RMState where
  is_conn_flag : Bool
  has_client : Bool
  has_queue : Bool
deriving DecidableEq

/-- Outcome of one `connect()` attempt: success; an exception before
`self._redis_client` is assigned (pool creation fails); or an exception
after the client is assigned (the test `ping()` or `Queue(...)` raises). -/
inductive ConnectOutcome
  | ok
  | failEarly
  | failLate
deriving DecidableEq

/-- `RedisManager.connect` (`redis_manager.py` 36-76). -/
def RedisManager.connect : ConnectOutcome → RMState → Bool × RMState
  | .ok, _ => (true, ⟨true, true, true⟩)
  | .failEarly, s => (false, { s with is_conn_flag := false })
  | .failLate, s => (false, ⟨false, true, s.has_queue⟩)

/-- `RedisManager.disconnect` (`redis_manager.py` 78-89): always ends with the
flag cleared and both handles dropped. -/
def RedisManager.disconnect (_s : RMState) : RMState := ⟨false, false, false⟩

/-- `RedisManager.reconnect`: disconnect then connect. -/
def RedisManager.reconnect (o : ConnectOutcome) (s : RMState) : Bool × RMState :=
  RedisManager.connect o (RedisManager.disconnect s)

/-- `RedisManager.ping` (`redis_manager.py` 102-118): `False` when no client;
on a raised `ConnectionError`/`TimeoutError`/`RedisError` the connected flag
is cleared and `False` is returned (the exception is swallowed). -/
def RedisManager.ping (pingOk : Bool) (s : RMState) : Bool × RMState :=
  if !s.has_client then (false, s)
  else if pingOk then (true, s)
  else (false, { s with is_conn_flag := false })

/-- The `is_connected` property (`redis_manager.py` 176-179):
`self._is_connected and self.ping()` with Python short-circuiting, so the
fresh `ping()` (and its state effect) happens only when the flag is set. -/
def RedisManager.is_connected (pingOk : Bool) (s : RMState) : Bool × RMState :=
  if s.is_conn_flag then RedisManager.ping pingOk s else (false, s)

/-- The record returned by `RedisManager.health_check`. -/
structure RMHealth where
  connected : Bool
  ping : Bool
  queue_available : Bool
  info_available : Bool
  error : Option String
deriving DecidableEq

/-- Backend outcomes consumed by one `RedisManager.health_check` call. -/
structure RMEnv where
  pingOk : Bool
  infoOk : Bool
  infoNonempty : Bool
deriving DecidableEq

/-- `RedisManager.health_check` (`redis_manager.py` 136-174).  It calls
`self._redis_client.ping()` directly (not `self.ping`), so it never mutates
the manager state; a ping failure returns early with `queue_available` still
`False` while `connected` still reports the cached flag. -/
def RedisManager.health_check (env : RMEnv) (s : RMState) : RMHealth :=
  let base : RMHealth := ⟨s.is_conn_flag, false, false, false, none⟩
  if !s.has_client then { base with error := some "No Redis client available" }
  else if !env.pingOk then { base with error := some "Ping failed" }
  else
    let h1 := { base with ping := true, queue_available := s.has_queue }
    if env.infoOk then { h1 with info_available := env.infoNonempty } else h1

/-- The states a `RedisManager` can be in: the freshly constructed state
closed under every state-mutating operation of the class. -/
inductive RMReachable : RMState → Prop
  | init : RMReachable ⟨false, false, false⟩
  | connect (o : ConnectOutcome) {s} :
      RMReachable s → RMReachable (RedisManager.connect o s).2
  | disconnect {s} : RMReachable s → RMReachable (RedisManager.disconnect s)
  | ping (ok : Bool) {s} : RMReachable s → RMReachable (RedisManager.ping ok s).2
  | is_connected (ok : Bool) {s} :
      RMReachable s → RMReachable (RedisManager.is_connected ok s).2

/-! ## `main.py`: the `/health` aggregator -/

/-- The health report assembled by `main.health_check`: the `overall` flag,
the three sub-checks under `services`, and the `details.redis_error` field
set when the redis sub-check fails. -/
structure MainHealth where
  overall : Bool
  redis : Bool
  queue : Bool
  generation : Bool
  redis_error : Option String
deriving DecidableEq

/-- `main.health_check` (`main.py` 92-129), given the record returned by
`RedisManager.health_check`, the configured `PROVIDER` and whether the
Gemini client initialized.  `overall` starts `True`, is cleared when the
redis sub-check is false, and is cleared when no generation provider is
available; the queue sub-check is only reported. -/
def main_health_check (rh : RMHealth) (provider : String) (gemini_client : Bool) :
    MainHealth :=
  let redis := rh.connected
  let queue := rh.queue_available
  let overall1 := if !redis then false else true
  let err := if !redis then rh.error else none
  let generation := provider == "openrouter" || gemini_client
  let overall2 := if generation then overall1 else false
  ⟨overall2, redis, queue, generation, err⟩

/-! ## Providers (`provider_openrouter.py`, `respond.py`)

Each provider call consumes an environment describing the outcome of its
external interactions (credential resolution, the HTTP round trip, the
response payload). -/

/-- Environment of one `generate_with_openrouter` call: the key produced by
`_resolve_openrouter_api_key()` (`none` when both the variable and the file
are missing), whether anything inside the `try` block raises (network error,
malformed JSON), the HTTP status, and `choices[i].message.content` for each
returned choice (`none` when the content field is missing or null). -/
structure OREnv where
  api_key : Option String
  raises : Bool
  status_code : Nat
  choices : List (Option String)
deriving DecidableEq

/-- `generate_with_openrouter` (`provider_openrouter.py` 32-71): content
string on success, `none` on every failure path; a whitespace-only content
is turned into `None` by `content or None`. -/
def generate_with_openrouter (env : OREnv) (_prompt : String) : Option String :=
  if env.api_key.getD "" = "" then none
  else if env.raises then none
  else if env.status_code ≠ 200 then none
  else
    match env.choices with
    | [] => none
    | c :: _ =>
      let content := pyStrip (c.getD "")
      if content = "" then none else some content

/-- Environment of one `_generate_with_gemini` call: whether the module-level
`gemini_client` initialized, whether `generate_content` raises, whether the
response has candidates, and the response's `text` attribute (`""` when
falsy). -/
structure GeminiEnv where
  client_ok : Bool
  raises : Bool
  has_candidates : Bool
  text : String
deriving DecidableEq

/-- `_generate_with_gemini` (`respond.py` 54-90).  Note that every failure
path returns a non-empty English error string rather than an empty result. -/
def generate_with_gemini (env : GeminiEnv) (_prompt : String) : String :=
  if !env.client_ok then "Error: AI model not configured."
  else if env.raises then "Error generating AI response."
  else if !env.has_candidates then "AI response generation failed or was blocked."
  else if env.text = "" then "AI response generation failed or was blocked."
  else pyStrip env.text

/-- The reserved marker checked by `prompt.startswith("test prompt:")`. -/
def testPromptMarker : String := "test prompt:"

/-- The terminal all-providers-failed message of `predict_response`. -/
def terminalFailureMsg : String := "Error: Unable to generate response from any provider."

/-- The conversational wrapper applied to a non-test result:
`f'Okay. I received "{prompt}".\n\n{result_text}'`. -/
def wrapResp (prompt text : String) : String :=
  "Okay. I received \"" ++ prompt ++ "\".\n\n" ++ text

/-- The `api_prompt` local of `predict_response` (`respond.py` 105-106): the
prompt with the reserved marker stripped when present. -/
def apiPrompt (prompt : String) : String :=
  if strStartsWith prompt testPromptMarker then strDrop prompt testPromptMarker.length
  else prompt

/-- The `result_text` computed by `predict_response` (`respond.py` 110-134):
the configured primary provider is called first, and the alternate provider
is called exactly when the primary produced no (non-empty) text.  The two
provider calls (`generate_with_openrouter(...) or ""` and
`_generate_with_gemini(...)`) are passed in as functions of the api prompt;
instantiating them with the embeddings above and their environments recovers
the concrete pipeline. -/
def resultText (orGen : String → Option String) (gemGen : String → String)
    (provider api_prompt : String) : String :=
  if provider == "openrouter" then
    let r := (orGen api_prompt).getD ""
    if r = "" then gemGen api_prompt else r
  else
    let r := gemGen api_prompt
    if r = "" then (orGen api_prompt).getD "" else r

/-- `predict_response` (`respond.py` 92-149): the terminal failure message
when no provider produced text, the bare text for a test prompt, and the
wrapped text otherwise. -/
def predict_response (orGen : String → Option String) (gemGen : String → String)
    (provider : String) (prompt : String) : String :=
  let is_test_prompt := strStartsWith prompt testPromptMarker
  let result_text := resultText orGen gemGen provider (apiPrompt prompt)
  if result_text = "" then terminalFailureMsg
  else if is_test_prompt then result_text
  else wrapResp prompt result_text

/-- The text the pipeline obtains from the configured primary provider:
OpenRouter when `PROVIDER == "openrouter"`, Gemini otherwise. -/
def primaryText (orGen : String → Option String) (gemGen : String → String)
    (provider api_prompt : String) : String :=
  if provider == "openrouter" then (orGen api_prompt).getD "" else gemGen api_prompt

/-- The text the pipeline obtains from the alternate (fallback) provider. -/
def alternateText (orGen : String → Option String) (gemGen : String → String)
    (provider api_prompt : String) : String :=
  if provider == "openrouter" then gemGen api_prompt else (orGen api_prompt).getD ""

/-- Substring containment, used for "the result contains the provider's
text". -/
def containsText (s t : String) : Prop := ∃ a b, s = a ++ t ++ b

/-! ## Helper lemmas -/

/-- A prefix of a list whose leading run of `p` is empty also has an empty
leading run of `p`. -/
theorem dropWhile_eq_self_of_prefix {α : Type} {p : α → Bool} {l m : List α}
    (hpre : m <+: l) (hl : l.dropWhile p = l) : m.dropWhile p = m := by
  rw [List.dropWhile_eq_self_iff] at hl ⊢
  intro hm
  have hlen : 0 < l.length := lt_of_lt_of_le hm hpre.length_le
  have h0 := hl hlen
  have hg := hpre.getElem (show 0 < m.length from hm)
  simpa [List.get_eq_getElem, ← hg] using h0

/-- `stripList` is idempotent. -/
theorem stripList_idem (l : List Char) : stripList (stripList l) = stripList l := by
  unfold stripList
  have hAdrop : (l.dropWhile pyWs).dropWhile pyWs = l.dropWhile pyWs :=
    List.dropWhile_idempotent pyWs l
  have h1 : ((l.dropWhile pyWs).rdropWhile pyWs).dropWhile pyWs
      = (l.dropWhile pyWs).rdropWhile pyWs :=
    dropWhile_eq_self_of_prefix (List.rdropWhile_prefix pyWs _) hAdrop
  rw [h1, List.rdropWhile_idempotent]

/-- Every element of `stripList l` is an element of `l`. -/
theorem mem_stripList {c : Char} {l : List Char} (h : c ∈ stripList l) : c ∈ l := by
  unfold stripList at h
  exact (List.dropWhile_sublist pyWs).subset
    (((List.rdropWhile_prefix pyWs _).sublist).subset h)

/-- `squeezeSpacesTabs` never emits a tab: every space/tab run is emitted as a
single `' '` and other characters are passed through unchanged. -/
theorem squeezeSpacesTabs_no_tab : ∀ (b : Bool) (l : List Char) (c : Char),
    c ∈ squeezeSpacesTabs b l → c ≠ '\t' := by
  intro b l
  induction l generalizing b with
  | nil => intro c h; simp [squeezeSpacesTabs] at h
  | cons a rest ih =>
    intro c h
    by_cases ha : (a == ' ' || a == '\t') = true
    · by_cases hb : b = true
      · rw [squeezeSpacesTabs, ha, hb] at h
        simp only [if_true] at h
        exact ih true c h
      · rw [squeezeSpacesTabs, ha] at h
        rw [Bool.not_eq_true] at hb
        rw [hb] at h
        simp only [Bool.false_eq_true, if_true, if_false, List.mem_cons] at h
        rcases h with h | h
        · rw [h]; decide
        · exact ih true c h
    · rw [squeezeSpacesTabs] at h
      rw [Bool.not_eq_true] at ha
      rw [ha] at h
      simp only [Bool.false_eq_true, if_false, List.mem_cons] at h
      rcases h with h | h
      · rw [h]
        intro hc
        rw [hc] at ha
        simp at ha
      · exact ih false c h

/-! ## Claim C10: properties of `sanitize_prompt` -/

/-- C10 (counterexample): `sanitize_prompt` is not idempotent and its output
can contain a CR-LF sequence.  On `"a\r\r\nb"` the first pass rewrites the
inner CR-LF, leaving the surviving bare CR adjacent to the produced newline,
so one application returns `"a\r\nb"` and a second application changes it to
`"a\nb"`. -/
theorem C10_counterexample :
    sanitize_prompt (sanitize_prompt ("a\r\r\nb".data)) ≠ sanitize_prompt ("a\r\r\nb".data) ∧
    sanitize_prompt ("a\r\r\nb".data) = "a\r\nb".data := by decide

/-- C10 (amended): the output of `sanitize_prompt` never contains the removed
control characters or a tab, and carries no leading or trailing whitespace
(stripping it again is the identity); `sanitize_prompt` is, however, not
idempotent, and its output can contain CR-LF sequences, newline runs of three
or more, and runs of multiple spaces. -/
theorem C10_sanitize_output_props (l : List Char) :
    (∀ c ∈ sanitize_prompt l, removedCtrl c = false ∧ c ≠ '\t') ∧
    stripList (sanitize_prompt l) = sanitize_prompt l := by
  unfold sanitize_prompt
  by_cases hl : l = []
  · simp only [hl, if_true]
    refine ⟨by intro c h; simp at h, ?_⟩
    simp [stripList]
  · simp only [hl, if_false]
    constructor
    · intro c hc
      have hmem := mem_stripList hc
      constructor
      · have := List.of_mem_filter hmem
        simpa using this
      · exact squeezeSpacesTabs_no_tab false _ c (List.mem_of_mem_filter hmem)
    · exact stripList_idem _

/-! ## Claim C6: cache key derivation -/

/-- C6: the generated cache key is the configured namespace string, the
provider, the model and the first 16 hex characters of SHA-256 of the UTF-8
prompt bytes joined by `":"`, hard-cut to the default maximum length 250 when
longer; the derivation is pure, so two calls on an equal (prompt, provider,
model) triple always yield the identical key. -/
theorem C6_cache_key_structure (prompt provider model : String) :
    (generate_cache_key maxKeyLength prompt provider model =
      (let full := llmCacheNamespaceStr ++ ":" ++ provider ++ ":" ++ model ++ ":"
          ++ strTake (sha256hex prompt) 16
       if full.length > 250 then strTake full 250 else full)) ∧
    generate_cache_key maxKeyLength prompt provider model =
      generate_cache_key maxKeyLength prompt provider model :=
  ⟨rfl, rfl⟩

/-! ## Claim C7: `CacheManager.set` rejection paths -/

/-- C7: `set` returns `False` and leaves the store (and counters) untouched
whenever the response is empty or whitespace-only, and likewise whenever the
backend is unavailable. -/
theorem C7_set_rejects (env : RedisEnv) (st : CacheSt)
    (prompt provider model response : String) (metadata : Metadata) (ttl : Option Nat) :
    (pyStrip response = "" →
      CacheManager.set env st prompt provider model response metadata ttl = (false, st)) ∧
    (env.connected = false →
      CacheManager.set env st prompt provider model response metadata ttl = (false, st)) := by
  constructor
  · intro h
    by_cases hc : env.connected = true
    · simp [CacheManager.set, hc, h]
    · rw [Bool.not_eq_true] at hc
      simp [CacheManager.set, hc]
  · intro h
    simp [CacheManager.set, h]

/-- C7 witness: the empty and whitespace-only responses are rejected on a
connected backend, and a non-empty response is rejected on a disconnected
backend, each leaving the state unchanged. -/
theorem C7_witness :
    pyStrip "   " = "" ∧
    CacheManager.set ⟨true, false, 0⟩ ⟨0, 0, []⟩ "p" "openrouter" "m" "   " [] none
      = (false, ⟨0, 0, []⟩) ∧
    pyStrip "" = "" ∧
    CacheManager.set ⟨true, false, 0⟩ ⟨0, 0, []⟩ "p" "openrouter" "m" "" [] none
      = (false, ⟨0, 0, []⟩) ∧
    CacheManager.set ⟨false, false, 0⟩ ⟨0, 0, []⟩ "p" "openrouter" "m" "x" [] none
      = (false, ⟨0, 0, []⟩) :=
  ⟨by decide,
   (C7_set_rejects ⟨true, false, 0⟩ ⟨0, 0, []⟩ "p" "openrouter" "m" "   " [] none).1 (by decide),
   by decide,
   (C7_set_rejects ⟨true, false, 0⟩ ⟨0, 0, []⟩ "p" "openrouter" "m" "" [] none).1 (by decide),
   (C7_set_rejects ⟨false, false, 0⟩ ⟨0, 0, []⟩ "p" "openrouter" "m" "x" [] none).2 rfl⟩

/-! ## Claim C8: `CacheManager.clear_all` -/

/-- C8: `clear_all` returns `False` when the backend is unavailable; returns
`True` leaving the store unchanged when the namespace scan finds no keys; and
when the scan finds keys it reports success and removes exactly the scanned
(namespace-matching) keys, leaving the other keys and both counters
untouched. -/
theorem C8_clear_all_behavior (env : RedisEnv) (st : CacheSt) :
    (env.connected = false → CacheManager.clear_all env st = (false, st)) ∧
    (env.connected = true → env.opRaises = false → scanKeys st.store = [] →
      CacheManager.clear_all env st = (true, st)) ∧
    (env.connected = true → env.opRaises = false → scanKeys st.store ≠ [] →
      (CacheManager.clear_all env st).1 = true ∧
      (CacheManager.clear_all env st).2.store
        = st.store.filter (fun p => !(strStartsWith p.1 llmCacheNamespaceStr)) ∧
      (CacheManager.clear_all env st).2.hit_count = st.hit_count ∧
      (CacheManager.clear_all env st).2.miss_count = st.miss_count) := by
  refine ⟨?_, ?_, ?_⟩
  · intro h
    simp [CacheManager.clear_all, h]
  · intro h1 h2 h3
    simp [CacheManager.clear_all, h1, h2, h3]
  · intro h1 h2 h3
    have hlen : 0 < (scanKeys st.store).length := List.length_pos.mpr h3
    have hne : (scanKeys st.store).isEmpty = false := by
      cases hsk : scanKeys st.store with
      | nil => exact absurd hsk h3
      | cons a as => rfl
    simp [CacheManager.clear_all, h1, h2, hne, hlen]

/-- C8 witness: on a connected backend, clearing an empty cache returns
`True`; clearing a cache holding one namespaced key and one foreign key
returns `True` and deletes exactly the namespaced key; a disconnected
backend yields `False`. -/
theorem C8_witness :
    CacheManager.clear_all ⟨true, false, 0⟩ ⟨0, 0, []⟩ = (true, ⟨0, 0, []⟩) ∧
    ((CacheManager.clear_all ⟨true, false, 0⟩
        ⟨0, 0, [("llm_cache::openrouter:m:k", .corrupt), ("other", .corrupt)]⟩).1 = true ∧
     (CacheManager.clear_all ⟨true, false, 0⟩
        ⟨0, 0, [("llm_cache::openrouter:m:k", .corrupt), ("other", .corrupt)]⟩).2.store
        = [("other", StoredVal.corrupt)]) ∧
    CacheManager.clear_all ⟨false, false, 0⟩ ⟨0, 0, []⟩ = (false, ⟨0, 0, []⟩) :=
  ⟨(C8_clear_all_behavior ⟨true, false, 0⟩ ⟨0, 0, []⟩).2.1 rfl rfl (by decide),
   (by
    have h := (C8_clear_all_behavior ⟨true, false, 0⟩
      ⟨0, 0, [("llm_cache::openrouter:m:k", .corrupt), ("other", .corrupt)]⟩).2.2
      rfl rfl (by decide)
    exact ⟨h.1, by rw [h.2.1]; decide⟩),
   (C8_clear_all_behavior ⟨false, false, 0⟩ ⟨0, 0, []⟩).1 rfl⟩

/-! ## Claim C2: `CacheManager.get` accounting -/

/-- C2 (counterexample): a `get` while the backend is unavailable returns
(absent, empty metadata) but leaves the miss counter at 0, not 1 as the claim
requires for every non-hit. -/
theorem C2_counterexample :
    CacheManager.get ⟨false, false, 0⟩ ⟨0, 0, []⟩ "p" "openrouter" "m"
      = ((none, []), ⟨0, 0, []⟩) ∧
    (CacheManager.get ⟨false, false, 0⟩ ⟨0, 0, []⟩ "p" "openrouter" "m").2.miss_count = 0 :=
  ⟨rfl, rfl⟩

/-- C2 (amended): on a connected, non-raising backend, an absent key, an
undeserializable payload and a stored empty response each increment the miss
counter by exactly one and return (absent, empty metadata); a stored
non-empty response increments the hit counter by exactly one and returns the
stored response with the stored metadata augmented by the cached-at
timestamp; when the backend is unavailable or the read raises, `get` returns
(absent, empty metadata) without touching either counter. -/
theorem C2_get_characterization (env : RedisEnv) (st : CacheSt)
    (prompt provider model : String) :
    (env.connected = false →
      CacheManager.get env st prompt provider model = ((none, []), st)) ∧
    (env.connected = true → env.opRaises = true →
      CacheManager.get env st prompt provider model = ((none, []), st)) ∧
    (env.connected = true → env.opRaises = false →
      storeLookup st.store (generate_cache_key maxKeyLength prompt provider model) = none →
      CacheManager.get env st prompt provider model
        = ((none, []), { st with miss_count := st.miss_count + 1 })) ∧
    (env.connected = true → env.opRaises = false →
      storeLookup st.store (generate_cache_key maxKeyLength prompt provider model)
        = some .corrupt →
      CacheManager.get env st prompt provider model
        = ((none, []), { st with miss_count := st.miss_count + 1 })) ∧
    (∀ r m ts, env.connected = true → env.opRaises = false →
      storeLookup st.store (generate_cache_key maxKeyLength prompt provider model)
        = some (.entry r m ts) → r = "" →
      CacheManager.get env st prompt provider model
        = ((none, []), { st with miss_count := st.miss_count + 1 })) ∧
    (∀ r m ts, env.connected = true → env.opRaises = false →
      storeLookup st.store (generate_cache_key maxKeyLength prompt provider model)
        = some (.entry r m ts) → r ≠ "" →
      CacheManager.get env st prompt provider model
        = ((some r, dictSet m "cached_at" (.n ts)),
           { st with hit_count := st.hit_count + 1 })) := by
  refine ⟨?_, ?_, ?_, ?_, ?_, ?_⟩
  · intro h
    simp [CacheManager.get, h]
  · intro h1 h2
    simp [CacheManager.get, h1, h2]
  · intro h1 h2 h3
    simp [CacheManager.get, h1, h2, h3]
  · intro h1 h2 h3
    simp [CacheManager.get, h1, h2, h3, deserialize_response]
  · intro r m ts h1 h2 h3 hr
    simp [CacheManager.get, h1, h2, h3, deserialize_response, hr]
  · intro r m ts h1 h2 h3 hr
    simp [CacheManager.get, h1, h2, h3, deserialize_response, hr]

/-- C2 witness: on a one-entry store whose key is the generated key for the
triple, a hit returns the stored response with the cached-at timestamp merged
into the metadata and bumps the hit counter to 1; on the empty store a miss
bumps the miss counter to 1. -/
theorem C2_witness :
    CacheManager.get ⟨true, false, 7⟩
        ⟨0, 0, [(generate_cache_key maxKeyLength "p" "openrouter" "m",
                 .entry "resp" [] 7)]⟩ "p" "openrouter" "m"
      = ((some "resp", [("cached_at", MetaVal.n 7)]),
         ⟨1, 0, [(generate_cache_key maxKeyLength "p" "openrouter" "m",
                  .entry "resp" [] 7)]⟩) ∧
    CacheManager.get ⟨true, false, 7⟩ ⟨0, 0, []⟩ "p" "openrouter" "m"
      = ((none, []), ⟨0, 1, []⟩) :=
  ⟨(C2_get_characterization ⟨true, false, 7⟩
      ⟨0, 0, [(generate_cache_key maxKeyLength "p" "openrouter" "m", .entry "resp" [] 7)]⟩
      "p" "openrouter" "m").2.2.2.2.2 "resp" [] 7 rfl rfl
      (by simp [storeLookup]) (by decide),
   (C2_get_characterization ⟨true, false, 7⟩ ⟨0, 0, []⟩ "p" "openrouter" "m").2.2.1
      rfl rfl rfl⟩

/-! ## Claim C9: `is_connected` and `ping` -/

/-- Invariant of reachable `RedisManager` states: the `_is_connected` flag is
set only while a client handle exists. -/
theorem rm_flag_imp_client {s : RMState} (h : RMReachable s) :
    s.is_conn_flag = true → s.has_client = true := by
  induction h with
  | init => intro h0; exact absurd h0 (by decide)
  | connect o hs ih => cases o <;> simp [RedisManager.connect]
  | disconnect hs ih => simp [RedisManager.disconnect]
  | ping ok hs ih =>
    simp only [RedisManager.ping]
    split
    · exact ih
    · split
      · exact ih
      · simp
  | is_connected ok hs ih =>
    simp only [RedisManager.is_connected]
    split
    · simp only [RedisManager.ping]
      split
      · exact ih
      · split
        · exact ih
        · simp
    · exact ih

/-- C9: in every reachable state, the derived `is_connected` property reports
true only if the internal connected flag is set and the fresh `ping` issued
during the access succeeds; and whenever `ping` reports failure, the state it
leaves behind has the internal connected flag cleared (the model is total, so
no exception escapes). -/
theorem C9_is_connected_fresh_ping {s : RMState} (h : RMReachable s) (pingOk : Bool) :
    ((RedisManager.is_connected pingOk s).1 = true →
      s.is_conn_flag = true ∧ (RedisManager.ping pingOk s).1 = true) ∧
    ((RedisManager.ping pingOk s).1 = false →
      (RedisManager.ping pingOk s).2.is_conn_flag = false) := by
  have hcli := rm_flag_imp_client h
  constructor
  · intro h1
    by_cases hf : s.is_conn_flag = true
    · refine ⟨hf, ?_⟩
      rw [RedisManager.is_connected] at h1
      simpa [hf] using h1
    · rw [Bool.not_eq_true] at hf
      rw [RedisManager.is_connected] at h1
      simp [hf] at h1
  · intro h2
    by_cases hc : s.has_client = true
    · rw [RedisManager.ping] at h2 ⊢
      simp only [hc] at h2 ⊢
      cases hp : pingOk
      · simp [hp]
      · rw [hp] at h2
        simp at h2
    · rw [Bool.not_eq_true] at hc
      rw [RedisManager.ping]
      simp only [hc]
      by_contra hft
      simp only [Bool.not_eq_false] at hft
      simp at hft
      rw [hcli hft] at hc
      cases hc

/-- C9 witness: the healthy post-connect state is reachable, and there the
claim's conclusions hold with a failing ping: the access reports false and
the flag is cleared. -/
theorem C9_witness :
    RMReachable ⟨true, true, true⟩ ∧
    (RedisManager.ping false ⟨true, true, true⟩).2.is_conn_flag = false ∧
    (RedisManager.is_connected false ⟨true, true, true⟩).1 = false :=
  have hr : RMReachable ⟨true, true, true⟩ := RMReachable.connect .ok RMReachable.init
  ⟨hr, (C9_is_connected_fresh_ping hr false).2 rfl, rfl⟩

/-! ## Claim C1: the `/health` aggregate -/

/-- C1 (counterexample): after a successful `connect()` the state with flag,
client and queue handles is reachable; if the backend then stops answering
pings, `RedisManager.health_check` returns early with `connected = True` but
`queue_available = False`, and `main.health_check` reports `overall = True`
while the queue sub-check is `False` — contradicting the claim that `overall`
is true only when every sub-check is. -/
theorem C1_counterexample :
    RMReachable ⟨true, true, true⟩ ∧
    (main_health_check (RedisManager.health_check ⟨false, true, true⟩ ⟨true, true, true⟩)
        "openrouter" true).overall = true ∧
    (main_health_check (RedisManager.health_check ⟨false, true, true⟩ ⟨true, true, true⟩)
        "openrouter" true).queue = false :=
  ⟨RMReachable.connect .ok RMReachable.init, rfl, rfl⟩

/-- C1 (amended): the aggregate `overall` field equals the conjunction of the
redis and generation sub-checks alone; the queue sub-check is reported but
never consulted for `overall`. -/
theorem C1_overall_iff (rh : RMHealth) (provider : String) (gemini_client : Bool) :
    (main_health_check rh provider gemini_client).overall
      = ((main_health_check rh provider gemini_client).redis
         && (main_health_check rh provider gemini_client).generation) := by
  cases hc : rh.connected <;>
    cases hg : (provider == "openrouter" || gemini_client) <;>
      simp [main_health_check, hc, hg]

/-! ## Claim C3: provider failure normalization -/

/-- C3 (counterexample): the Gemini provider does not return absent/empty on
failure: with the client uninitialized it returns the non-empty error string
"Error: AI model not configured.", so a Gemini failure does not trigger the
pipeline's no-usable-text fallback branch. -/
theorem C3_counterexample :
    generate_with_gemini ⟨false, false, true, "t"⟩ "hello"
      = "Error: AI model not configured." ∧
    generate_with_gemini ⟨false, false, true, "t"⟩ "hello" ≠ "" :=
  ⟨rfl, by decide⟩

/-- C3 (amended): every failure path of the OpenRouter provider (missing
credentials, raised request, non-200 status, empty candidate set,
whitespace-only content) returns absent, and it never returns `some ""`; the
Gemini provider instead returns one of three fixed non-empty error strings on
its failure paths, so its failures are never empty text. -/
theorem C3_provider_failure_normalization (orEnv : OREnv) (gEnv : GeminiEnv)
    (prompt : String) :
    (orEnv.api_key.getD "" = "" → generate_with_openrouter orEnv prompt = none) ∧
    (orEnv.raises = true → generate_with_openrouter orEnv prompt = none) ∧
    (orEnv.status_code ≠ 200 → generate_with_openrouter orEnv prompt = none) ∧
    (orEnv.choices = [] → generate_with_openrouter orEnv prompt = none) ∧
    (∀ c rest, orEnv.choices = c :: rest → pyStrip (c.getD "") = "" →
      generate_with_openrouter orEnv prompt = none) ∧
    generate_with_openrouter orEnv prompt ≠ some "" ∧
    (gEnv.client_ok = false →
      generate_with_gemini gEnv prompt = "Error: AI model not configured.") ∧
    (gEnv.client_ok = true → gEnv.raises = true →
      generate_with_gemini gEnv prompt = "Error generating AI response.") ∧
    (gEnv.client_ok = true → gEnv.raises = false → gEnv.has_candidates = false →
      generate_with_gemini gEnv prompt = "AI response generation failed or was blocked.") ∧
    (gEnv.client_ok = true → gEnv.raises = false → gEnv.text = "" →
      generate_with_gemini gEnv prompt = "AI response generation failed or was blocked.") ∧
    (gEnv.client_ok = false ∨ gEnv.raises = true ∨ gEnv.has_candidates = false ∨
        gEnv.text = "" →
      generate_with_gemini gEnv prompt ≠ "") := by
  refine ⟨?_, ?_, ?_, ?_, ?_, ?_, ?_, ?_, ?_, ?_, ?_⟩
  · intro h; simp [generate_with_openrouter, h]
  · intro h
    by_cases h1 : orEnv.api_key.getD "" = "" <;>
      simp [generate_with_openrouter, h, h1]
  · intro h
    by_cases h1 : orEnv.api_key.getD "" = "" <;>
      by_cases h2 : orEnv.raises = true <;>
        simp [generate_with_openrouter, h, h1, h2]
  · intro h
    by_cases h1 : orEnv.api_key.getD "" = "" <;>
      by_cases h2 : orEnv.raises = true <;>
        by_cases h3 : orEnv.status_code = 200 <;>
          simp [generate_with_openrouter, h, h1, h2, h3]
  · intro c rest hch hstr
    by_cases h1 : orEnv.api_key.getD "" = "" <;>
      by_cases h2 : orEnv.raises = true <;>
        by_cases h3 : orEnv.status_code = 200 <;>
          simp [generate_with_openrouter, h1, h2, h3, hch, hstr]
  · by_cases h1 : orEnv.api_key.getD "" = ""
    · simp [generate_with_openrouter, h1]
    · by_cases h2 : orEnv.raises = true
      · simp [generate_with_openrouter, h1, h2]
      · by_cases h3 : orEnv.status_code = 200
        · cases hch : orEnv.choices with
          | nil => simp [generate_with_openrouter, h1, h2, h3, hch]
          | cons c rest =>
            by_cases h4 : pyStrip (c.getD "") = "" <;>
              simp [generate_with_openrouter, h1, h2, h3, hch, h4]
        · simp [generate_with_openrouter, h1, h2, h3]
  · intro h; simp [generate_with_gemini, h]
  · intro h1 h2; simp [generate_with_gemini, h1, h2]
  · intro h1 h2 h3; simp [generate_with_gemini, h1, h2, h3]
  · intro h1 h2 h3
    by_cases h4 : gEnv.has_candidates = true <;>
      simp [generate_with_gemini, h1, h2, h3, h4]
  · intro hfail
    by_cases h1 : gEnv.client_ok = true
    · by_cases h2 : gEnv.raises = true
      · simp [generate_with_gemini, h1, h2]
      · by_cases h3 : gEnv.has_candidates = true
        · by_cases h4 : gEnv.text = ""
          · simp [generate_with_gemini, h1, h2, h3, h4]
          · rcases hfail with h | h | h | h
            · rw [h1] at h; cases h
            · rw [Bool.not_eq_true] at h2; rw [h2] at h; cases h
            · rw [h3] at h; cases h
            · exact absurd h h4
        · simp [generate_with_gemini, h1, h2, h3]
    · simp [generate_with_gemini, h1]

/-- C3 witness: concrete failing environments for each provider. -/
theorem C3_witness :
    generate_with_openrouter ⟨none, false, 200, [some "hi"]⟩ "p" = none ∧
    generate_with_openrouter ⟨some "k", false, 500, [some "hi"]⟩ "p" = none ∧
    generate_with_openrouter ⟨some "k", false, 200, []⟩ "p" = none ∧
    generate_with_gemini ⟨true, true, true, "t"⟩ "p" = "Error generating AI response." ∧
    generate_with_gemini ⟨true, false, false, "t"⟩ "p"
      = "AI response generation failed or was blocked." ∧
    generate_with_gemini ⟨true, true, true, "t"⟩ "p" ≠ "" :=
  ⟨(C3_provider_failure_normalization ⟨none, false, 200, [some "hi"]⟩
      ⟨true, true, true, "t"⟩ "p").1 rfl,
   (C3_provider_failure_normalization ⟨some "k", false, 500, [some "hi"]⟩
      ⟨true, true, true, "t"⟩ "p").2.2.1 (by decide),
   (C3_provider_failure_normalization ⟨some "k", false, 200, []⟩
      ⟨true, true, true, "t"⟩ "p").2.2.2.1 rfl,
   (C3_provider_failure_normalization ⟨none, false, 200, []⟩
      ⟨true, true, true, "t"⟩ "p").2.2.2.2.2.2.2.1 rfl rfl,
   (C3_provider_failure_normalization ⟨none, false, 200, []⟩
      ⟨true, false, false, "t"⟩ "p").2.2.2.2.2.2.2.2.1 rfl rfl rfl,
   (C3_provider_failure_normalization ⟨none, false, 200, []⟩
      ⟨true, true, true, "t"⟩ "p").2.2.2.2.2.2.2.2.2.2 (Or.inr (Or.inl rfl))⟩

/-! ## The pipeline characterization shared by C4 and C5 -/

/-- `result_text` in terms of the primary/alternate decomposition: the
alternate provider's text is consulted exactly when the primary's is empty. -/
theorem resultText_eq (orGen : String → Option String) (gemGen : String → String)
    (provider api : String) :
    resultText orGen gemGen provider api
      = (if primaryText orGen gemGen provider api = ""
         then alternateText orGen gemGen provider api
         else primaryText orGen gemGen provider api) := by
  by_cases h : (provider == "openrouter") = true <;>
    simp [resultText, primaryText, alternateText, h]

/-- The conversational wrapper never equals the terminal failure message
(their first characters already differ). -/
theorem wrapResp_ne_terminal (p t : String) : wrapResp p t ≠ terminalFailureMsg := by
  intro h
  have hdata : (wrapResp p t).data.head? = terminalFailureMsg.data.head? :=
    congrArg (fun s => s.data.head?) h
  have h2 : (wrapResp p t).data.head? = some 'O' := by
    rw [wrapResp, String.append_assoc, String.append_assoc, String.data_append]
    rfl
  have h3 : terminalFailureMsg.data.head? = some 'E' := rfl
  rw [h2, h3] at hdata
  cases hdata

/-- Every string contains itself. -/
theorem containsText_self (s : String) : containsText s s :=
  ⟨"", "", by simp⟩

/-- The wrapped response contains the provider text as a substring. -/
theorem containsText_wrap (p t : String) : containsText (wrapResp p t) t :=
  ⟨"Okay. I received \"" ++ p ++ "\".\n\n", "", by simp [wrapResp]⟩

/-! ## Claim C4: provider ordering, fallback and the terminal message -/

/-- C4 (counterexample): when the primary provider yields usable text that
happens to be exactly the terminal sentence and the prompt is a test prompt,
the returned string equals the terminal failure message even though a
provider succeeded — so "the result is not the terminal message" fails as a
universal statement. -/
theorem C4_counterexample :
    primaryText (fun _ => some terminalFailureMsg) (fun _ => "") "openrouter"
        (apiPrompt "test prompt: x") ≠ "" ∧
    predict_response (fun _ => some terminalFailureMsg) (fun _ => "") "openrouter"
        "test prompt: x" = terminalFailureMsg :=
  ⟨by decide, rfl⟩

/-- C4 (amended): the primary provider's text is used whenever it is
non-empty and the result then contains it; the alternate provider's text is
used exactly when the primary's is empty, the result then containing it; when
both are empty the pipeline returns the distinct terminal failure message;
and for a non-test prompt a successful result never equals the terminal
message (a test prompt echoes the provider text verbatim, which can itself be
that sentence). -/
theorem C4_provider_fallback (orGen : String → Option String) (gemGen : String → String)
    (provider prompt : String) :
    (primaryText orGen gemGen provider (apiPrompt prompt) ≠ "" →
      predict_response orGen gemGen provider prompt
        = (if strStartsWith prompt testPromptMarker
           then primaryText orGen gemGen provider (apiPrompt prompt)
           else wrapResp prompt (primaryText orGen gemGen provider (apiPrompt prompt))) ∧
      containsText (predict_response orGen gemGen provider prompt)
        (primaryText orGen gemGen provider (apiPrompt prompt))) ∧
    (primaryText orGen gemGen provider (apiPrompt prompt) = "" →
      alternateText orGen gemGen provider (apiPrompt prompt) ≠ "" →
      predict_response orGen gemGen provider prompt
        = (if strStartsWith prompt testPromptMarker
           then alternateText orGen gemGen provider (apiPrompt prompt)
           else wrapResp prompt (alternateText orGen gemGen provider (apiPrompt prompt))) ∧
      containsText (predict_response orGen gemGen provider prompt)
        (alternateText orGen gemGen provider (apiPrompt prompt))) ∧
    (primaryText orGen gemGen provider (apiPrompt prompt) = "" →
      alternateText orGen gemGen provider (apiPrompt prompt) = "" →
      predict_response orGen gemGen provider prompt = terminalFailureMsg) ∧
    (primaryText orGen gemGen provider (apiPrompt prompt) ≠ "" →
      strStartsWith prompt testPromptMarker = false →
      predict_response orGen gemGen provider prompt ≠ terminalFailureMsg) := by
  refine ⟨?_, ?_, ?_, ?_⟩
  · intro hp
    rw [predict_response, resultText_eq, if_neg hp]
    constructor
    · simp [hp]
    · rw [if_neg hp]
      cases ht : strStartsWith prompt testPromptMarker
      · simp [ht]
        exact containsText_wrap prompt _
      · simp [ht]
        exact containsText_self _
  · intro hp ha
    rw [predict_response, resultText_eq, if_pos hp]
    constructor
    · simp [ha]
    · rw [if_neg ha]
      cases ht : strStartsWith prompt testPromptMarker
      · simp [ht]
        exact containsText_wrap prompt _
      · simp [ht]
        exact containsText_self _
  · intro hp ha
    rw [predict_response, resultText_eq, if_pos hp, ha]
    simp
  · intro hp ht
    rw [predict_response, resultText_eq, if_neg hp]
    simp [hp, ht]
    exact wrapResp_ne_terminal prompt _

/-- C4 witness: the specification's fallback example — the primary returns
absent, the fallback returns "X", and `predict_response "hello"` produces the
wrapped "X", contains "X", and is not the all-providers-failed message; with
both providers empty the terminal message is produced. -/
theorem C4_witness :
    predict_response (fun _ => none) (fun _ => "X") "openrouter" "hello"
      = wrapResp "hello" "X" ∧
    containsText (predict_response (fun _ => none) (fun _ => "X") "openrouter" "hello") "X" ∧
    predict_response (fun _ => none) (fun _ => "X") "openrouter" "hello"
      ≠ terminalFailureMsg ∧
    predict_response (fun _ => none) (fun _ => "") "openrouter" "hello"
      = terminalFailureMsg := by
  have h := (C4_provider_fallback (fun _ => none) (fun _ => "X") "openrouter" "hello").2.1
    (by decide) (by decide)
  refine ⟨h.1.trans rfl, h.2, ?_, ?_⟩
  · rw [h.1]
    rw [show strStartsWith "hello" testPromptMarker = false from rfl]
    simp only [Bool.false_eq_true, if_false]
    exact wrapResp_ne_terminal "hello" _
  · exact (C4_provider_fallback (fun _ => none) (fun _ => "") "openrouter" "hello").2.2.1
      (by decide) (by decide)

/-! ## Claim C5: the test-prompt protocol and the response wrapper -/

/-- C5 (counterexample): for a test prompt on which every provider fails, the
pipeline returns the non-empty terminal failure message, not the (empty) raw
provider text — so the unconditional "returns exactly the raw provider text"
reading of the claim fails. -/
theorem C5_counterexample :
    strStartsWith "test prompt: x" testPromptMarker = true ∧
    resultText (fun _ => none) (fun _ => "") "openrouter" (apiPrompt "test prompt: x") = "" ∧
    predict_response (fun _ => none) (fun _ => "") "openrouter" "test prompt: x"
      = terminalFailureMsg ∧
    terminalFailureMsg ≠ "" :=
  ⟨rfl, rfl, rfl, by decide⟩

/-- C5 (amended): for a prompt carrying the reserved marker the pipeline calls
the providers on the prompt with the marker stripped and, when a provider
yields usable text, returns exactly that raw text with no wrapper (with no
usable text it returns the terminal failure message); for any other prompt
with a usable provider result it returns exactly the conversational wrapper
around the original prompt followed by a blank line and the provider text. -/
theorem C5_test_prompt_protocol (orGen : String → Option String) (gemGen : String → String)
    (provider prompt : String) :
    (strStartsWith prompt testPromptMarker = true →
      apiPrompt prompt = strDrop prompt testPromptMarker.length ∧
      (resultText orGen gemGen provider (strDrop prompt testPromptMarker.length) ≠ "" →
        predict_response orGen gemGen provider prompt
          = resultText orGen gemGen provider (strDrop prompt testPromptMarker.length))) ∧
    (strStartsWith prompt testPromptMarker = false →
      resultText orGen gemGen provider prompt ≠ "" →
      predict_response orGen gemGen provider prompt
        = "Okay. I received \"" ++ prompt ++ "\".\n\n"
            ++ resultText orGen gemGen provider prompt) := by
  constructor
  · intro ht
    have hapi : apiPrompt prompt = strDrop prompt testPromptMarker.length := by
      rw [apiPrompt, ht]
      simp
    refine ⟨hapi, fun hr => ?_⟩
    rw [predict_response, hapi, if_neg hr, ht]
    simp
  · intro ht hr
    have hapi : apiPrompt prompt = prompt := by
      rw [apiPrompt, ht]
      simp
    rw [predict_response, hapi, if_neg hr, ht]
    simp [wrapResp, String.append_assoc]

/-- C5 witness: the specification's examples — a stub provider returning
"pong" yields exactly `"pong"` for `"test prompt: ping"` and exactly
`Okay. I received "ping".` plus a blank line plus `"pong"` for `"ping"`. -/
theorem C5_witness :
    predict_response (fun _ => some "pong") (fun _ => "gem") "openrouter" "test prompt: ping"
      = "pong" ∧
    predict_response (fun _ => some "pong") (fun _ => "gem") "openrouter" "ping"
      = "Okay. I received \"ping\".\n\npong" :=
  ⟨(((C5_test_prompt_protocol (fun _ => some "pong") (fun _ => "gem") "openrouter"
      "test prompt: ping").1 rfl).2 (by decide)).trans rfl,
   ((C5_test_prompt_protocol (fun _ => some "pong") (fun _ => "gem") "openrouter"
      "ping").2 rfl (by decide)).trans rfl⟩

end LlmTextQueue
